import Mathlib

/-!
Verification of the bioreactor temperature-control core: a shallow embedding of
`temperature_pid_controller` (src/src/utils.py) and of the periodic job
scheduler it runs under, with theorems settling the spec's claims.

Python floats are modelled as exact rationals (`ℚ`); a possibly-NaN float is
`Option ℚ` with `none` standing for NaN. The temperature-sensor read, the
peltier-driver availability flag and the wall clock are collaborator inputs
gathered in `Env`. Actuator calls and log lines are returned as data rather
than performed.
-/

namespace Bioreactor

/-- Peltier drive direction; the source's `'heat'`/`'cool'` strings. -/
inductive Direction
  | heat
  | cool
deriving DecidableEq

/-- An actuator command issued by one controller invocation:
`set_peltier_power(duty, forward=direction)` or `stop_peltier()`. -/
inductive PeltierCmd
  | setPower (duty : ℚ) (dir : Direction)
  | stop
deriving DecidableEq

/-- The log lines the controller can emit in one invocation. -/
inductive LogEvent
  | infoStatus
  | warnPeltierUninitialized
  | warnNaNSkip
deriving DecidableEq

/-- The persistent PID state stored on the bioreactor instance
(`_temp_integral`, `_temp_last_error`, `_temp_last_time`,
`_temp_last_derivative` in utils.py lines 259-266). -/
structure PIDState where
  temp_integral : ℚ
  temp_last_error : ℚ
  temp_last_time : Option ℚ
  temp_last_derivative : ℚ
deriving DecidableEq

/-- The auto-initialized state of a fresh controller. -/
def initState : PIDState := ⟨0, 0, none, 0⟩

/-- Collaborator inputs of one invocation: the value
`get_temperature` would return (`none` = NaN), whether
`is_component_initialized('peltier_driver')` holds, and `time.time()`. -/
structure Env where
  sensor : Option ℚ
  peltier_init : Bool
  now : ℚ

/-- Resolution of `current_temp` (utils.py lines 269-270): use the supplied
argument if present, else read the sensor. -/
def resolveTemp (current_temp : Option (Option ℚ)) (sensor : Option ℚ) : Option ℚ :=
  match current_temp with
  | some v => v
  | none => sensor

/-- Resolution of `dt` and the `_temp_last_time` update (utils.py lines
276-286). Returns the `dt` used and the new `_temp_last_time`. When `dt` is
supplied and `elapsed` is not, `_temp_last_time` is left unchanged. -/
def resolveDt (dt elapsed : Option ℚ) (now : ℚ) (last_time : Option ℚ) : ℚ × Option ℚ :=
  match dt with
  | none =>
    let current_time := elapsed.getD now
    match last_time with
    | some lt => (current_time - lt, some current_time)
    | none => (1, some current_time)
  | some d =>
    match elapsed with
    | some e => (d, some e)
    | none => (d, last_time)

/-- The intermediate values of one non-NaN control step
(utils.py lines 291-309). -/
structure PIDComp where
  error : ℚ
  integral : ℚ
  raw_derivative : ℚ
  derivative : ℚ
  output : ℚ
  duty : ℚ
  direction : Direction
deriving DecidableEq

/-- The straight-line PID math of utils.py lines 291-309: integral update,
guarded raw derivative, exponentially filtered derivative, PID output,
duty clamped into `[0, max_duty]`, and the heat/cool direction. -/
def pidMath (s : PIDState) (setpoint t dtv kp ki kd max_duty alpha : ℚ) : PIDComp :=
  let error := setpoint - t
  let integral := s.temp_integral + error * dtv
  let raw_derivative := if 0 < dtv then (error - s.temp_last_error) / dtv else 0
  let derivative := alpha * s.temp_last_derivative + (1 - alpha) * raw_derivative
  let output := kp * error + ki * integral + kd * derivative
  let duty := max 0 (min max_duty |output|)
  let direction := if 0 < output then Direction.heat else Direction.cool
  ⟨error, integral, raw_derivative, derivative, output, duty, direction⟩

/-- One invocation of `temperature_pid_controller` (utils.py lines 205-339),
given the persistent state, the collaborator inputs and the call arguments.
Returns the new state, the actuator command issued (if any), and the log
lines emitted. `sensor_index` is absorbed into `Env.sensor`, the value the
selected sensor returns. -/
def temperature_pid_controller (bio : PIDState) (env : Env) (setpoint : ℚ)
    (current_temp : Option (Option ℚ)) (kp ki kd : ℚ) (dt elapsed : Option ℚ)
    (max_duty derivative_alpha : ℚ) : PIDState × Option PeltierCmd × List LogEvent :=
  match resolveTemp current_temp env.sensor, resolveDt dt elapsed env.now bio.temp_last_time with
  | none, r => ({ bio with temp_last_time := r.2 }, none, [LogEvent.warnNaNSkip])
  | some t, r =>
    let c := pidMath bio setpoint t r.1 kp ki kd max_duty derivative_alpha
    let s2 : PIDState := ⟨c.integral, c.error, r.2, c.derivative⟩
    if env.peltier_init then
      if 0 < c.duty then (s2, some (PeltierCmd.setPower c.duty c.direction), [LogEvent.infoStatus])
      else (s2, some PeltierCmd.stop, [LogEvent.infoStatus])
    else (s2, none, [LogEvent.warnPeltierUninitialized])

/-- The spec's clamp: `clamp(x, lo, hi) = max lo (min hi x)`. -/
def clamp (x lo hi : ℚ) : ℚ := max lo (min hi x)

/-- Modelled from the spec: the periodic job scheduler (`Bioreactor.run`) is
not under src/ (only its callers are). Per §4.1, each job runs on its own
independent unit of execution; the scheduler wraps each invocation of the
job's action in a catch-all, so an outcome is either normal or a caught,
logged exception. -/
inductive Outcome
  | ok
  | exn
deriving DecidableEq

/-- Modelled from the spec: the per-job counters of the scheduler model —
invocations performed, exceptions caught and logged, and ticks remaining
until the next invocation. -/
structure JobState where
  invocations : Nat
  errorsLogged : Nat
  countdown : Nat
deriving DecidableEq

/-- Modelled from the spec: one guarded invocation of a job's action
(§4.1: a failure is caught, logged, and must not terminate the job's
execution unit). The invocation counts either way; an exception only adds
a logged error. -/
def invokeOnce (o : Outcome) (s : JobState) : JobState :=
  match o with
  | Outcome.ok => { s with invocations := s.invocations + 1 }
  | Outcome.exn => { s with invocations := s.invocations + 1,
                            errorsLogged := s.errorsLogged + 1 }

/-- Modelled from the spec: one clock tick of a job's sleep/invoke loop with
period `p` ticks. When the countdown reaches zero the action is invoked
(guarded) and the countdown resets to `p`; otherwise the job sleeps. -/
def jobTick (b : Nat → Outcome) (p : Nat) (s : JobState) : JobState :=
  if s.countdown = 0 then
    let s1 := invokeOnce (b s.invocations) s
    { s1 with countdown := p }
  else
    { s with countdown := s.countdown - 1 }

/-- Modelled from the spec: a job's independent execution unit run for `n`
ticks, invoking its action with behavior `b` (outcome of the k-th
invocation) at cadence `p`. -/
def runJob (b : Nat → Outcome) (p : Nat) : Nat → JobState
  | 0 => ⟨0, 0, 0⟩
  | n + 1 => jobTick b p (runJob b p n)

/-- Modelled from the spec: two sibling jobs run concurrently, each on its
own independent unit of execution (§4.1, §5), for the same window of `n`
ticks. -/
def runPair (b1 b2 : Nat → Outcome) (p1 p2 n : Nat) : JobState × JobState :=
  (runJob b1 p1 n, runJob b2 p2 n)

/-- Helper: the controller's result when the resolved temperature is a
number, written out explicitly. -/
theorem tpc_some_eq (bio : PIDState) (env : Env) (setpoint : ℚ)
    (ct : Option (Option ℚ)) (kp ki kd : ℚ) (dt el : Option ℚ)
    (max_duty alpha t : ℚ) (ht : resolveTemp ct env.sensor = some t) :
    temperature_pid_controller bio env setpoint ct kp ki kd dt el max_duty alpha =
      (⟨(pidMath bio setpoint t (resolveDt dt el env.now bio.temp_last_time).1 kp ki kd max_duty alpha).integral,
        (pidMath bio setpoint t (resolveDt dt el env.now bio.temp_last_time).1 kp ki kd max_duty alpha).error,
        (resolveDt dt el env.now bio.temp_last_time).2,
        (pidMath bio setpoint t (resolveDt dt el env.now bio.temp_last_time).1 kp ki kd max_duty alpha).derivative⟩,
       if env.peltier_init then
         if 0 < (pidMath bio setpoint t (resolveDt dt el env.now bio.temp_last_time).1 kp ki kd max_duty alpha).duty then
           some (PeltierCmd.setPower
             (pidMath bio setpoint t (resolveDt dt el env.now bio.temp_last_time).1 kp ki kd max_duty alpha).duty
             (pidMath bio setpoint t (resolveDt dt el env.now bio.temp_last_time).1 kp ki kd max_duty alpha).direction)
         else some PeltierCmd.stop
       else none,
       if env.peltier_init then [LogEvent.infoStatus] else [LogEvent.warnPeltierUninitialized]) := by
  unfold temperature_pid_controller
  rw [ht]
  by_cases hpi : env.peltier_init <;> simp [hpi]
  split <;> rfl

/-- Helper: the controller's result when the resolved temperature is NaN. -/
theorem tpc_none_eq (bio : PIDState) (env : Env) (setpoint : ℚ)
    (ct : Option (Option ℚ)) (kp ki kd : ℚ) (dt el : Option ℚ)
    (max_duty alpha : ℚ) (ht : resolveTemp ct env.sensor = none) :
    temperature_pid_controller bio env setpoint ct kp ki kd dt el max_duty alpha =
      ({ bio with temp_last_time := (resolveDt dt el env.now bio.temp_last_time).2 },
       none, [LogEvent.warnNaNSkip]) := by
  unfold temperature_pid_controller
  rw [ht]

/-- Helper: the issued command when the resolved temperature is a number. -/
theorem tpc_some_cmd (bio : PIDState) (env : Env) (setpoint : ℚ)
    (ct : Option (Option ℚ)) (kp ki kd : ℚ) (dt el : Option ℚ)
    (max_duty alpha t : ℚ) (ht : resolveTemp ct env.sensor = some t) :
    (temperature_pid_controller bio env setpoint ct kp ki kd dt el max_duty alpha).2.1 =
      (if env.peltier_init then
        if 0 < (pidMath bio setpoint t (resolveDt dt el env.now bio.temp_last_time).1 kp ki kd max_duty alpha).duty then
          some (PeltierCmd.setPower
            (pidMath bio setpoint t (resolveDt dt el env.now bio.temp_last_time).1 kp ki kd max_duty alpha).duty
            (pidMath bio setpoint t (resolveDt dt el env.now bio.temp_last_time).1 kp ki kd max_duty alpha).direction)
        else some PeltierCmd.stop
      else none) := by
  rw [tpc_some_eq bio env setpoint ct kp ki kd dt el max_duty alpha t ht]

/-- Helper: the new state when the resolved temperature is a number. -/
theorem tpc_some_state (bio : PIDState) (env : Env) (setpoint : ℚ)
    (ct : Option (Option ℚ)) (kp ki kd : ℚ) (dt el : Option ℚ)
    (max_duty alpha t : ℚ) (ht : resolveTemp ct env.sensor = some t) :
    (temperature_pid_controller bio env setpoint ct kp ki kd dt el max_duty alpha).1 =
      ⟨(pidMath bio setpoint t (resolveDt dt el env.now bio.temp_last_time).1 kp ki kd max_duty alpha).integral,
       (pidMath bio setpoint t (resolveDt dt el env.now bio.temp_last_time).1 kp ki kd max_duty alpha).error,
       (resolveDt dt el env.now bio.temp_last_time).2,
       (pidMath bio setpoint t (resolveDt dt el env.now bio.temp_last_time).1 kp ki kd max_duty alpha).derivative⟩ := by
  rw [tpc_some_eq bio env setpoint ct kp ki kd dt el max_duty alpha t ht]

/-- Helper: the error written out explicitly. -/
theorem pidMath_error (s : PIDState) (setpoint t dtv kp ki kd max_duty alpha : ℚ) :
    (pidMath s setpoint t dtv kp ki kd max_duty alpha).error = setpoint - t := rfl

/-- Helper: the updated integral written out explicitly. -/
theorem pidMath_integral (s : PIDState) (setpoint t dtv kp ki kd max_duty alpha : ℚ) :
    (pidMath s setpoint t dtv kp ki kd max_duty alpha).integral
      = s.temp_integral + (setpoint - t) * dtv := rfl

/-- Helper: the filtered derivative written out explicitly. -/
theorem pidMath_derivative (s : PIDState) (setpoint t dtv kp ki kd max_duty alpha : ℚ) :
    (pidMath s setpoint t dtv kp ki kd max_duty alpha).derivative
      = alpha * s.temp_last_derivative
        + (1 - alpha) * (if 0 < dtv then ((setpoint - t) - s.temp_last_error) / dtv else 0) := rfl

/-- Helper: the PID output written out explicitly. -/
theorem pidMath_output (s : PIDState) (setpoint t dtv kp ki kd max_duty alpha : ℚ) :
    (pidMath s setpoint t dtv kp ki kd max_duty alpha).output
      = kp * (setpoint - t) + ki * (s.temp_integral + (setpoint - t) * dtv)
        + kd * (alpha * s.temp_last_derivative
            + (1 - alpha) * (if 0 < dtv then ((setpoint - t) - s.temp_last_error) / dtv else 0)) := rfl

/-- Helper: the duty written out explicitly. -/
theorem pidMath_duty (s : PIDState) (setpoint t dtv kp ki kd max_duty alpha : ℚ) :
    (pidMath s setpoint t dtv kp ki kd max_duty alpha).duty
      = max 0 (min max_duty |(pidMath s setpoint t dtv kp ki kd max_duty alpha).output|) := rfl

/-- Helper: the direction written out explicitly. -/
theorem pidMath_direction (s : PIDState) (setpoint t dtv kp ki kd max_duty alpha : ℚ) :
    (pidMath s setpoint t dtv kp ki kd max_duty alpha).direction
      = if 0 < (pidMath s setpoint t dtv kp ki kd max_duty alpha).output
        then Direction.heat else Direction.cool := rfl

/-- C1: for every invocation with non-NaN current temperature and
`max_duty ≥ 0`, the duty equals `clamp(|output|, 0, max_duty)`, hence lies in
`[0, max_duty]`, and any duty passed to the actuator is exactly that value. -/
theorem duty_clamped_and_bounded (bio : PIDState) (env : Env) (setpoint : ℚ)
    (ct : Option (Option ℚ)) (kp ki kd : ℚ) (dt el : Option ℚ)
    (max_duty alpha t dtv : ℚ)
    (ht : resolveTemp ct env.sensor = some t)
    (hdt : (resolveDt dt el env.now bio.temp_last_time).1 = dtv)
    (hm : 0 ≤ max_duty) :
    (pidMath bio setpoint t dtv kp ki kd max_duty alpha).duty
      = clamp |(pidMath bio setpoint t dtv kp ki kd max_duty alpha).output| 0 max_duty
    ∧ 0 ≤ (pidMath bio setpoint t dtv kp ki kd max_duty alpha).duty
    ∧ (pidMath bio setpoint t dtv kp ki kd max_duty alpha).duty ≤ max_duty
    ∧ ∀ d dir,
        (temperature_pid_controller bio env setpoint ct kp ki kd dt el max_duty alpha).2.1
          = some (PeltierCmd.setPower d dir) →
        d = (pidMath bio setpoint t dtv kp ki kd max_duty alpha).duty := by
  subst hdt
  refine ⟨rfl, ?_, ?_, ?_⟩
  · rw [pidMath_duty]; exact le_max_left _ _
  · rw [pidMath_duty]; exact max_le hm (min_le_left _ _)
  · intro d dir hcmd
    rw [tpc_some_eq bio env setpoint ct kp ki kd dt el max_duty alpha t ht] at hcmd
    cases hpi : env.peltier_init <;> rw [hpi] at hcmd
    · simp at hcmd
    · simp only [if_true] at hcmd
      split at hcmd
      · injection hcmd with h
        injection h with h1 h2
        exact h1.symm
      · simp at hcmd

/-- C2: for every invocation where the resolved current temperature is NaN
(supplied or read from the sensor), the integral, last error and last
derivative are unchanged, no actuator command is issued, and a warning is
logged. -/
theorem nan_skip_preserves_state (bio : PIDState) (env : Env) (setpoint : ℚ)
    (ct : Option (Option ℚ)) (kp ki kd : ℚ) (dt el : Option ℚ)
    (max_duty alpha : ℚ)
    (ht : resolveTemp ct env.sensor = none) :
    (temperature_pid_controller bio env setpoint ct kp ki kd dt el max_duty alpha).1.temp_integral
      = bio.temp_integral
    ∧ (temperature_pid_controller bio env setpoint ct kp ki kd dt el max_duty alpha).1.temp_last_error
      = bio.temp_last_error
    ∧ (temperature_pid_controller bio env setpoint ct kp ki kd dt el max_duty alpha).1.temp_last_derivative
      = bio.temp_last_derivative
    ∧ (temperature_pid_controller bio env setpoint ct kp ki kd dt el max_duty alpha).2.1 = none
    ∧ LogEvent.warnNaNSkip
        ∈ (temperature_pid_controller bio env setpoint ct kp ki kd dt el max_duty alpha).2.2 := by
  rw [tpc_none_eq bio env setpoint ct kp ki kd dt el max_duty alpha ht]
  exact ⟨rfl, rfl, rfl, rfl, by simp⟩

/-- C3: for every invocation with non-NaN temperature and the peltier driver
initialized: positive output with positive duty issues Heat, negative output
with positive duty issues Cool, zero output issues Stop, and zero gains force
zero output. -/
theorem direction_sign (bio : PIDState) (env : Env) (setpoint : ℚ)
    (ct : Option (Option ℚ)) (kp ki kd : ℚ) (dt el : Option ℚ)
    (max_duty alpha t dtv : ℚ)
    (ht : resolveTemp ct env.sensor = some t)
    (hdt : (resolveDt dt el env.now bio.temp_last_time).1 = dtv)
    (hpi : env.peltier_init = true) :
    (0 < (pidMath bio setpoint t dtv kp ki kd max_duty alpha).output →
     0 < (pidMath bio setpoint t dtv kp ki kd max_duty alpha).duty →
     (temperature_pid_controller bio env setpoint ct kp ki kd dt el max_duty alpha).2.1
       = some (PeltierCmd.setPower (pidMath bio setpoint t dtv kp ki kd max_duty alpha).duty
           Direction.heat))
    ∧ ((pidMath bio setpoint t dtv kp ki kd max_duty alpha).output < 0 →
       0 < (pidMath bio setpoint t dtv kp ki kd max_duty alpha).duty →
       (temperature_pid_controller bio env setpoint ct kp ki kd dt el max_duty alpha).2.1
         = some (PeltierCmd.setPower (pidMath bio setpoint t dtv kp ki kd max_duty alpha).duty
             Direction.cool))
    ∧ ((pidMath bio setpoint t dtv kp ki kd max_duty alpha).output = 0 →
       (temperature_pid_controller bio env setpoint ct kp ki kd dt el max_duty alpha).2.1
         = some PeltierCmd.stop)
    ∧ (kp = 0 → ki = 0 → kd = 0 →
       (pidMath bio setpoint t dtv kp ki kd max_duty alpha).output = 0) := by
  subst hdt
  rw [tpc_some_eq bio env setpoint ct kp ki kd dt el max_duty alpha t ht]
  refine ⟨?_, ?_, ?_, ?_⟩
  · intro hout hduty
    simp [hpi, hduty, pidMath_direction, hout]
  · intro hout hduty
    simp [hpi, hduty, pidMath_direction, not_lt_of_lt hout]
  · intro hout
    have hduty : (pidMath bio setpoint t (resolveDt dt el env.now bio.temp_last_time).1
        kp ki kd max_duty alpha).duty = 0 := by
      rw [pidMath_duty, hout]
      simp [max_eq_left, min_le_right]
    simp [hpi, hduty]
  · intro h1 h2 h3
    rw [pidMath_output, h1, h2, h3]
    ring

/-- C4: for every invocation with non-NaN temperature the state update and
output follow the source's order: the integral is incremented first, the raw
derivative uses the old last error and is zero for non-positive dt, the new
filtered derivative blends the old one, and the output uses the already
updated integral and the new filtered derivative. -/
theorem update_order (bio : PIDState) (env : Env) (setpoint : ℚ)
    (ct : Option (Option ℚ)) (kp ki kd : ℚ) (dt el : Option ℚ)
    (max_duty alpha t dtv : ℚ)
    (ht : resolveTemp ct env.sensor = some t)
    (hdt : (resolveDt dt el env.now bio.temp_last_time).1 = dtv) :
    (temperature_pid_controller bio env setpoint ct kp ki kd dt el max_duty alpha).1.temp_integral
      = bio.temp_integral + (setpoint - t) * dtv
    ∧ (temperature_pid_controller bio env setpoint ct kp ki kd dt el max_duty alpha).1.temp_last_derivative
      = alpha * bio.temp_last_derivative
        + (1 - alpha) * (if 0 < dtv then ((setpoint - t) - bio.temp_last_error) / dtv else 0)
    ∧ (pidMath bio setpoint t dtv kp ki kd max_duty alpha).output
      = kp * (setpoint - t)
        + ki * (bio.temp_integral + (setpoint - t) * dtv)
        + kd * (alpha * bio.temp_last_derivative
            + (1 - alpha) * (if 0 < dtv then ((setpoint - t) - bio.temp_last_error) / dtv else 0)) := by
  subst hdt
  rw [tpc_some_eq bio env setpoint ct kp ki kd dt el max_duty alpha t ht]
  exact ⟨rfl, rfl, rfl⟩

/-- C5 counterexample: an invocation with an explicit `dt` and no `elapsed`
leaves `_temp_last_time` unset, so it does not hold the invocation's wall
clock timestamp (here 100) and the claim that it is always updated fails. -/
theorem last_time_claim_counterexample :
    (temperature_pid_controller initState ⟨some 20, true, 100⟩ 25 none 12 (3/200) 0
        (some 1) none 70 (7/10)).1.temp_last_time = none
    ∧ (temperature_pid_controller initState ⟨some 20, true, 100⟩ 25 none 12 (3/200) 0
        (some 1) none 70 (7/10)).1.temp_last_time ≠ some 100 := by
  have h : (temperature_pid_controller initState ⟨some 20, true, 100⟩ 25 none 12 (3/200) 0
      (some 1) none 70 (7/10)).1.temp_last_time = none := by
    rw [tpc_some_state initState ⟨some 20, true, 100⟩ 25 none 12 (3/200) 0
      (some 1) none 70 (7/10) 20 rfl]
    rfl
  refine ⟨h, ?_⟩
  rw [h]
  exact fun hc => Option.noConfusion hc

/-- C5 amended: after every invocation without an explicit `dt`,
`_temp_last_time` holds the invocation's timestamp (`elapsed` if given, else
wall clock); with an explicit `dt` it is set to `elapsed` when `elapsed` is
given and is left unchanged otherwise. -/
theorem last_time_update (bio : PIDState) (env : Env) (setpoint : ℚ)
    (ct : Option (Option ℚ)) (kp ki kd : ℚ) (dt el : Option ℚ)
    (max_duty alpha : ℚ) :
    (temperature_pid_controller bio env setpoint ct kp ki kd dt el max_duty alpha).1.temp_last_time
      = match dt, el with
        | none, _ => some (el.getD env.now)
        | some _, some e => some e
        | some _, none => bio.temp_last_time := by
  have hsnd : (resolveDt dt el env.now bio.temp_last_time).2
      = match dt, el with
        | none, _ => some (el.getD env.now)
        | some _, some e => some e
        | some _, none => bio.temp_last_time := by
    cases dt <;> cases el <;> cases hl : bio.temp_last_time <;> simp [resolveDt, hl]
  cases hres : resolveTemp ct env.sensor with
  | none =>
    rw [tpc_none_eq bio env setpoint ct kp ki kd dt el max_duty alpha hres]
    exact hsnd
  | some t =>
    rw [tpc_some_eq bio env setpoint ct kp ki kd dt el max_duty alpha t hres]
    exact hsnd

/-- Helper: exact output of the spec's first scenario. -/
theorem scenario1_output :
    (pidMath initState 25 20 1 12 (3/200) 0 70 (7/10)).output = 2403/40 := by
  rw [pidMath_output]
  norm_num [initState]

/-- Helper: exact duty of the spec's first scenario. -/
theorem scenario1_duty :
    (pidMath initState 25 20 1 12 (3/200) 0 70 (7/10)).duty = 2403/40 := by
  rw [pidMath_duty, scenario1_output, abs_of_nonneg (by norm_num : (0:ℚ) ≤ 2403/40)]
  norm_num [min_def, max_def]

/-- Helper: direction of the spec's first scenario. -/
theorem scenario1_direction :
    (pidMath initState 25 20 1 12 (3/200) 0 70 (7/10)).direction = Direction.heat := by
  rw [pidMath_direction, scenario1_output, if_pos (by norm_num : (0:ℚ) < 2403/40)]

/-- Helper: the command issued in the spec's first scenario. -/
theorem scenario1_cmd :
    (temperature_pid_controller initState ⟨some 20, true, 0⟩ 25 none 12 (3/200) 0
        (some 1) none 70 (7/10)).2.1
      = some (PeltierCmd.setPower (2403/40) Direction.heat) := by
  rw [tpc_some_cmd initState ⟨some 20, true, 0⟩ 25 none 12 (3/200) 0 (some 1) none 70 (7/10) 20 rfl]
  have hdt : (resolveDt (some 1) none ((⟨some 20, true, 0⟩ : Env).now)
      initState.temp_last_time).1 = 1 := rfl
  rw [hdt]
  simp only [if_true]
  rw [scenario1_duty, scenario1_direction, if_pos (by norm_num : (0:ℚ) < 2403/40)]

/-- Helper: exact output of the spec's mirrored scenario. -/
theorem scenario2_output :
    (pidMath initState 25 30 1 12 (3/200) 0 70 (7/10)).output = -(2403/40) := by
  rw [pidMath_output]
  norm_num [initState]

/-- Helper: exact duty of the spec's mirrored scenario. -/
theorem scenario2_duty :
    (pidMath initState 25 30 1 12 (3/200) 0 70 (7/10)).duty = 2403/40 := by
  rw [pidMath_duty, scenario2_output, abs_of_nonpos (by norm_num : -((2403:ℚ)/40) ≤ 0)]
  norm_num [min_def, max_def]

/-- Helper: direction of the spec's mirrored scenario. -/
theorem scenario2_direction :
    (pidMath initState 25 30 1 12 (3/200) 0 70 (7/10)).direction = Direction.cool := by
  rw [pidMath_direction, scenario2_output, if_neg (by norm_num : ¬ (0:ℚ) < -(2403/40))]

/-- Helper: the command issued in the spec's mirrored scenario. -/
theorem scenario2_cmd :
    (temperature_pid_controller initState ⟨some 30, true, 0⟩ 25 none 12 (3/200) 0
        (some 1) none 70 (7/10)).2.1
      = some (PeltierCmd.setPower (2403/40) Direction.cool) := by
  rw [tpc_some_cmd initState ⟨some 30, true, 0⟩ 25 none 12 (3/200) 0 (some 1) none 70 (7/10) 30 rfl]
  have hdt : (resolveDt (some 1) none ((⟨some 30, true, 0⟩ : Env).now)
      initState.temp_last_time).1 = 1 := rfl
  rw [hdt]
  simp only [if_true]
  rw [scenario2_duty, scenario2_direction, if_pos (by norm_num : (0:ℚ) < 2403/40)]

/-- C6 counterexample: in the spec's first scenario the output is 60.075,
not 60.0, because the integral is updated before the output is computed; the
duty is therefore also 60.075 and the issued command does not carry duty 60. -/
theorem scenario_output_counterexample :
    (pidMath initState 25 20 1 12 (3/200) 0 70 (7/10)).output ≠ 60
    ∧ (pidMath initState 25 20 1 12 (3/200) 0 70 (7/10)).duty ≠ 60
    ∧ (temperature_pid_controller initState ⟨some 20, true, 0⟩ 25 none 12 (3/200) 0
        (some 1) none 70 (7/10)).2.1 ≠ some (PeltierCmd.setPower 60 Direction.heat) := by
  refine ⟨?_, ?_, ?_⟩
  · rw [scenario1_output]; norm_num
  · rw [scenario1_duty]; norm_num
  · rw [scenario1_cmd]
    intro hc
    injection hc with h
    injection h with h1 h2
    exact absurd h1 (by norm_num)

/-- C6 amended: in exact arithmetic the first scenario yields error 5,
output 60.075 = 2403/40, duty 60.075 and direction Heat, and the mirrored
scenario yields error -5, output -60.075, duty 60.075 and direction Cool. -/
theorem scenario_exact_values :
    (pidMath initState 25 20 1 12 (3/200) 0 70 (7/10)).error = 5
    ∧ (pidMath initState 25 20 1 12 (3/200) 0 70 (7/10)).output = 2403/40
    ∧ (pidMath initState 25 20 1 12 (3/200) 0 70 (7/10)).duty = 2403/40
    ∧ (temperature_pid_controller initState ⟨some 20, true, 0⟩ 25 none 12 (3/200) 0
        (some 1) none 70 (7/10)).2.1
      = some (PeltierCmd.setPower (2403/40) Direction.heat)
    ∧ (pidMath initState 25 30 1 12 (3/200) 0 70 (7/10)).error = -5
    ∧ (pidMath initState 25 30 1 12 (3/200) 0 70 (7/10)).output = -(2403/40)
    ∧ (pidMath initState 25 30 1 12 (3/200) 0 70 (7/10)).duty = 2403/40
    ∧ (temperature_pid_controller initState ⟨some 30, true, 0⟩ 25 none 12 (3/200) 0
        (some 1) none 70 (7/10)).2.1
      = some (PeltierCmd.setPower (2403/40) Direction.cool) := by
  refine ⟨?_, scenario1_output, scenario1_duty, scenario1_cmd, ?_, scenario2_output,
    scenario2_duty, scenario2_cmd⟩
  · rw [pidMath_error]; norm_num
  · rw [pidMath_error]; norm_num

/-- C7: on the first invocation of a fresh controller with no explicit `dt`,
the resolved `dt` is 1 and the integral update uses it. -/
theorem first_call_dt_default (bio : PIDState) (env : Env) (setpoint : ℚ)
    (ct : Option (Option ℚ)) (kp ki kd : ℚ) (el : Option ℚ)
    (max_duty alpha t : ℚ)
    (hfresh : bio.temp_last_time = none)
    (ht : resolveTemp ct env.sensor = some t) :
    (resolveDt none el env.now bio.temp_last_time).1 = 1
    ∧ (temperature_pid_controller bio env setpoint ct kp ki kd none el max_duty alpha).1.temp_integral
      = bio.temp_integral + (setpoint - t) * 1 := by
  have hdt : (resolveDt none el env.now bio.temp_last_time).1 = 1 := by
    rw [hfresh]; cases el <;> rfl
  refine ⟨hdt, ?_⟩
  rw [tpc_some_eq bio env setpoint ct kp ki kd none el max_duty alpha t ht]
  show (pidMath bio setpoint t (resolveDt none el env.now bio.temp_last_time).1
      kp ki kd max_duty alpha).integral = _
  rw [hdt]
  rfl

/-- C8: for every invocation with non-NaN temperature and the peltier driver
not initialized, no actuator command is issued and a warning is logged, while
the state takes exactly the values it would take with the driver available. -/
theorem peltier_unavailable_state_still_updates (bio : PIDState) (env : Env)
    (setpoint : ℚ) (ct : Option (Option ℚ)) (kp ki kd : ℚ) (dt el : Option ℚ)
    (max_duty alpha t : ℚ)
    (ht : resolveTemp ct env.sensor = some t)
    (hpi : env.peltier_init = false) :
    (temperature_pid_controller bio env setpoint ct kp ki kd dt el max_duty alpha).2.1 = none
    ∧ (temperature_pid_controller bio env setpoint ct kp ki kd dt el max_duty alpha).2.2
      = [LogEvent.warnPeltierUninitialized]
    ∧ (temperature_pid_controller bio env setpoint ct kp ki kd dt el max_duty alpha).1
      = (temperature_pid_controller bio { env with peltier_init := true }
          setpoint ct kp ki kd dt el max_duty alpha).1 := by
  have ht2 : resolveTemp ct ({ env with peltier_init := true } : Env).sensor = some t := ht
  rw [tpc_some_eq bio env setpoint ct kp ki kd dt el max_duty alpha t ht,
    tpc_some_eq bio { env with peltier_init := true } setpoint ct kp ki kd dt el max_duty alpha t ht2]
  rw [hpi]
  exact ⟨rfl, rfl, rfl⟩

/-- C10: an invocation with no explicit `dt` and NaN temperature still
overwrites `_temp_last_time` with the invocation's timestamp while leaving
the other state fields unchanged, so the next cycle's computed `dt` measures
only the gap since the NaN cycle. -/
theorem nan_cycle_updates_last_time (bio : PIDState) (env : Env) (setpoint : ℚ)
    (ct : Option (Option ℚ)) (kp ki kd : ℚ) (el el2 : Option ℚ)
    (max_duty alpha now2 : ℚ)
    (ht : resolveTemp ct env.sensor = none) :
    (temperature_pid_controller bio env setpoint ct kp ki kd none el max_duty alpha).1
      = { bio with temp_last_time := some (el.getD env.now) }
    ∧ (resolveDt none el2 now2
        (temperature_pid_controller bio env setpoint ct kp ki kd none el max_duty alpha).1.temp_last_time).1
      = el2.getD now2 - el.getD env.now := by
  have hsnd : (resolveDt none el env.now bio.temp_last_time).2 = some (el.getD env.now) := by
    cases hl : bio.temp_last_time <;> simp [resolveDt, hl]
  rw [tpc_none_eq bio env setpoint ct kp ki kd none el max_duty alpha ht]
  rw [hsnd]
  exact ⟨rfl, rfl⟩

/-- Helper: a guarded invocation always advances the invocation counter,
whether or not the action raised. -/
theorem invokeOnce_invocations (o : Outcome) (s : JobState) :
    (invokeOnce o s).invocations = s.invocations + 1 := by
  cases o <;> rfl

/-- Helper: the invocation counter after one tick, independent of outcomes. -/
theorem jobTick_invocations (b : Nat → Outcome) (p : Nat) (s : JobState) :
    (jobTick b p s).invocations
      = if s.countdown = 0 then s.invocations + 1 else s.invocations := by
  unfold jobTick
  split
  · exact invokeOnce_invocations _ _
  · rfl

/-- Helper: the countdown after one tick, independent of outcomes. -/
theorem jobTick_countdown (b : Nat → Outcome) (p : Nat) (s : JobState) :
    (jobTick b p s).countdown
      = if s.countdown = 0 then p else s.countdown - 1 := by
  unfold jobTick
  split <;> rfl

/-- Helper: the logged-error counter after one tick of an always-raising job. -/
theorem jobTick_errorsLogged_exn (p : Nat) (s : JobState) :
    (jobTick (fun _ => Outcome.exn) p s).errorsLogged
      = if s.countdown = 0 then s.errorsLogged + 1 else s.errorsLogged := by
  unfold jobTick
  split <;> rfl

/-- Helper: a job's invocation count and countdown over any window do not
depend on the outcomes of its action. -/
theorem runJob_counters_independent (b b' : Nat → Outcome) (p : Nat) :
    ∀ n, (runJob b p n).invocations = (runJob b' p n).invocations
       ∧ (runJob b p n).countdown = (runJob b' p n).countdown := by
  intro n
  induction n with
  | zero => exact ⟨rfl, rfl⟩
  | succ n ih =>
    constructor
    · show (jobTick b p (runJob b p n)).invocations
        = (jobTick b' p (runJob b' p n)).invocations
      rw [jobTick_invocations, jobTick_invocations, ih.1, ih.2]
    · show (jobTick b p (runJob b p n)).countdown
        = (jobTick b' p (runJob b' p n)).countdown
      rw [jobTick_countdown, jobTick_countdown, ih.2]

/-- Helper: an always-raising job logs one error per invocation. -/
theorem runJob_exn_logs_eq_invocations (p : Nat) :
    ∀ n, (runJob (fun _ => Outcome.exn) p n).errorsLogged
       = (runJob (fun _ => Outcome.exn) p n).invocations := by
  intro n
  induction n with
  | zero => rfl
  | succ n ih =>
    show (jobTick (fun _ => Outcome.exn) p (runJob (fun _ => Outcome.exn) p n)).errorsLogged
      = (jobTick (fun _ => Outcome.exn) p (runJob (fun _ => Outcome.exn) p n)).invocations
    rw [jobTick_errorsLogged_exn, jobTick_invocations, ih]

/-- C9: in the scheduler model, a sibling job's entire run over a window is
unaffected by the other job's action outcomes (in particular by an action
that raises on every invocation), a job's own invocation cadence is
unaffected by its raising, and every raising invocation is caught and
logged. -/
theorem job_isolation (b1 b1' b2 : Nat → Outcome) (p1 p2 n : Nat) :
    (runPair b1 b2 p1 p2 n).2 = (runPair b1' b2 p1 p2 n).2
    ∧ (runJob b1 p1 n).invocations = (runJob b1' p1 n).invocations
    ∧ (runJob (fun _ => Outcome.exn) p1 n).errorsLogged
      = (runJob (fun _ => Outcome.exn) p1 n).invocations :=
  ⟨rfl, (runJob_counters_independent b1 b1' p1 n).1, runJob_exn_logs_eq_invocations p1 n⟩

/-- Witness for the duty bound at the spec's first scenario. -/
theorem duty_clamped_and_bounded_witness :
    (pidMath initState 25 20 1 12 (3/200) 0 70 (7/10)).duty
      = clamp |(pidMath initState 25 20 1 12 (3/200) 0 70 (7/10)).output| 0 70
    ∧ 0 ≤ (pidMath initState 25 20 1 12 (3/200) 0 70 (7/10)).duty
    ∧ (pidMath initState 25 20 1 12 (3/200) 0 70 (7/10)).duty ≤ 70
    ∧ ((temperature_pid_controller initState ⟨some 20, true, 0⟩ 25 none 12 (3/200) 0
          (some 1) none 70 (7/10)).2.1
        = some (PeltierCmd.setPower (2403/40) Direction.heat) →
       (2403/40 : ℚ) = (pidMath initState 25 20 1 12 (3/200) 0 70 (7/10)).duty) := by
  have h := duty_clamped_and_bounded initState ⟨some 20, true, 0⟩ 25 none 12 (3/200) 0
    (some 1) none 70 (7/10) 20 1 rfl rfl (by norm_num)
  exact ⟨h.1, h.2.1, h.2.2.1, h.2.2.2 (2403/40) Direction.heat⟩

/-- Witness for NaN skipping at a concrete invocation reading a NaN sensor. -/
theorem nan_skip_preserves_state_witness :
    (temperature_pid_controller initState ⟨none, true, 5⟩ 25 none 12 (3/200) 0
        none none 70 (7/10)).1.temp_integral = initState.temp_integral
    ∧ (temperature_pid_controller initState ⟨none, true, 5⟩ 25 none 12 (3/200) 0
        none none 70 (7/10)).1.temp_last_error = initState.temp_last_error
    ∧ (temperature_pid_controller initState ⟨none, true, 5⟩ 25 none 12 (3/200) 0
        none none 70 (7/10)).1.temp_last_derivative = initState.temp_last_derivative
    ∧ (temperature_pid_controller initState ⟨none, true, 5⟩ 25 none 12 (3/200) 0
        none none 70 (7/10)).2.1 = none
    ∧ LogEvent.warnNaNSkip ∈ (temperature_pid_controller initState ⟨none, true, 5⟩ 25 none
        12 (3/200) 0 none none 70 (7/10)).2.2 :=
  nan_skip_preserves_state initState ⟨none, true, 5⟩ 25 none 12 (3/200) 0 none none 70 (7/10) rfl

/-- Witness for the direction sign at the spec's first scenario. -/
theorem direction_sign_witness :
    (temperature_pid_controller initState ⟨some 20, true, 0⟩ 25 none 12 (3/200) 0
        (some 1) none 70 (7/10)).2.1
      = some (PeltierCmd.setPower (pidMath initState 25 20 1 12 (3/200) 0 70 (7/10)).duty
          Direction.heat) :=
  (direction_sign initState ⟨some 20, true, 0⟩ 25 none 12 (3/200) 0 (some 1) none 70 (7/10)
      20 1 rfl rfl rfl).1
    (by rw [scenario1_output]; norm_num)
    (by rw [scenario1_duty]; norm_num)

/-- Witness for the update order at the spec's first scenario. -/
theorem update_order_witness :
    (temperature_pid_controller initState ⟨some 20, true, 0⟩ 25 none 12 (3/200) 0
        (some 1) none 70 (7/10)).1.temp_integral
      = initState.temp_integral + (25 - 20) * 1
    ∧ (temperature_pid_controller initState ⟨some 20, true, 0⟩ 25 none 12 (3/200) 0
        (some 1) none 70 (7/10)).1.temp_last_derivative
      = 7/10 * initState.temp_last_derivative
        + (1 - 7/10) * (if (0:ℚ) < 1 then ((25 - 20) - initState.temp_last_error) / 1 else 0)
    ∧ (pidMath initState 25 20 1 12 (3/200) 0 70 (7/10)).output
      = 12 * (25 - 20)
        + 3/200 * (initState.temp_integral + (25 - 20) * 1)
        + 0 * (7/10 * initState.temp_last_derivative
            + (1 - 7/10) * (if (0:ℚ) < 1 then ((25 - 20) - initState.temp_last_error) / 1 else 0)) :=
  update_order initState ⟨some 20, true, 0⟩ 25 none 12 (3/200) 0 (some 1) none 70 (7/10)
    20 1 rfl rfl

/-- Witness for the first-call dt default at a concrete fresh invocation. -/
theorem first_call_dt_default_witness :
    (resolveDt none none (0:ℚ) initState.temp_last_time).1 = 1
    ∧ (temperature_pid_controller initState ⟨some 20, true, 0⟩ 25 none 12 (3/200) 0
        none none 70 (7/10)).1.temp_integral
      = initState.temp_integral + (25 - 20) * 1 :=
  first_call_dt_default initState ⟨some 20, true, 0⟩ 25 none 12 (3/200) 0 none 70 (7/10)
    20 rfl rfl

/-- Witness for the unavailable-peltier case at a concrete invocation. -/
theorem peltier_unavailable_state_still_updates_witness :
    (temperature_pid_controller initState ⟨some 20, false, 0⟩ 25 none 12 (3/200) 0
        (some 1) none 70 (7/10)).2.1 = none
    ∧ (temperature_pid_controller initState ⟨some 20, false, 0⟩ 25 none 12 (3/200) 0
        (some 1) none 70 (7/10)).2.2 = [LogEvent.warnPeltierUninitialized]
    ∧ (temperature_pid_controller initState ⟨some 20, false, 0⟩ 25 none 12 (3/200) 0
        (some 1) none 70 (7/10)).1
      = (temperature_pid_controller initState ⟨some 20, true, 0⟩ 25 none 12 (3/200) 0
          (some 1) none 70 (7/10)).1 :=
  peltier_unavailable_state_still_updates initState ⟨some 20, false, 0⟩ 25 none 12 (3/200) 0
    (some 1) none 70 (7/10) 20 rfl rfl

/-- Witness for the NaN-cycle timestamp overwrite at a concrete invocation. -/
theorem nan_cycle_updates_last_time_witness :
    (temperature_pid_controller initState ⟨none, true, 7⟩ 25 none 12 (3/200) 0
        none none 70 (7/10)).1
      = { initState with temp_last_time := some 7 }
    ∧ (resolveDt none none 9 (temperature_pid_controller initState ⟨none, true, 7⟩ 25 none
        12 (3/200) 0 none none 70 (7/10)).1.temp_last_time).1
      = (9:ℚ) - 7 :=
  nan_cycle_updates_last_time initState ⟨none, true, 7⟩ 25 none 12 (3/200) 0 none none
    70 (7/10) 9 rfl

end Bioreactor
